import Mathlib

/-!
Shallow embedding of the transcodash repository argument-compiler and
batch-driver core (src/render.py and src/transcodash.py), together with
proofs of the specification testable properties.

Python values that flow into the argument builders are modelled explicitly:
`None`, `str`, `int` and `bool`; Python floats occur only as literals that
are immediately stringified, so they are carried as their `str()` text.
Python dicts are modelled as ordered association lists (`PDict`), matching
Python 3.7+ insertion-order iteration. Filesystem paths are modelled as
plain strings joined with "/", and the set of existing filesystem entries
as a `List String`.
-/

mutual
/-- A Python value as it appears in render.py `settings.ffmpeg_render_args`
dictionary: `None`, a string, an int, a float (carried as its `str()` text,
exact for every literal in the source), or a nested dict. -/
inductive PVal where
  | vnone : PVal
  | vstr : String → PVal
  | vint : Int → PVal
  | vfloat : String → PVal
  | vdict : PDict → PVal
deriving Repr

/-- An ordered Python dict with string keys and `PVal` values. -/
inductive PDict where
  | nil : PDict
  | cons : String → PVal → PDict → PDict
deriving Repr
end

/-- Build a `PDict` from an ordered key/value list. -/
def pdictOf : List (String × PVal) → PDict
  | [] => PDict.nil
  | (k, v) :: rest => PDict.cons k v (pdictOf rest)

mutual
/-- The tokens one dict entry contributes in render.py `flatten_dict`
(lines 88-93): recurse into nested dicts, skip `None` when `skip_none`,
otherwise pair the flattened key with `str(value)` (a non-skipped `None`
yields the empty string, matching `str(v) if v is not None else str()`). -/
def flattenEntry (new_key : String) (v : PVal) (sep : String) (skip_none : Bool) :
    List (String × String) :=
  match v with
  | PVal.vdict d => flatten_dict d new_key sep skip_none
  | PVal.vnone => if skip_none then [] else [(new_key, "")]
  | PVal.vstr s => [(new_key, s)]
  | PVal.vint n => [(new_key, toString n)]
  | PVal.vfloat s => [(new_key, s)]

/-- render.py lines 86-95, `flatten_dict`: flattens a nested dict into
`(key, str(value))` pairs in iteration order, joining nested keys with
`sep`. -/
def flatten_dict (d : PDict) (parent_key sep : String) (skip_none : Bool) :
    List (String × String) :=
  match d with
  | PDict.nil => []
  | PDict.cons k v rest =>
    let new_key := if parent_key = "" then k else parent_key ++ sep ++ k
    flattenEntry new_key v sep skip_none ++ flatten_dict rest parent_key sep skip_none
end

/-- Python `list.insert(i, x)`: insert `x` before index `i`, clamping `i`
to the list length. -/
def pyInsert (l : List α) (i : Nat) (x : α) : List α :=
  l.take i ++ [x] ++ l.drop i

/-- Length of the longest entry in a list of path strings. -/
def maxLen (fs : List String) : Nat := fs.foldr (fun s m => max s.length m) 0

theorem length_le_maxLen {fs : List String} {s : String} :
    s ∈ fs → s.length ≤ maxLen fs := by
  induction fs with
  | nil => intro h; cases h
  | cons a t ih =>
    intro h
    show s.length ≤ max a.length (maxLen t)
    rcases List.mem_cons.mp h with rfl | h
    · exact le_max_left _ _
    · exact le_trans (ih h) (le_max_right _ _)

/-- render.py lines 109-112: the no-clobber loop. Starting from the stem
path `wo` (the output path without its extension), while the candidate
`wo ++ "." ++ ext` exists in the filesystem `fs`, append `"_new"` to the
stem and retry. Terminates for every finite `fs` because the candidate
grows strictly at each step. -/
def noClobberLoop (fs : List String) (ext wo : String) : String :=
  if h : (wo ++ "." ++ ext) ∈ fs then
    noClobberLoop fs ext (wo ++ "_new")
  else wo ++ "." ++ ext
termination_by maxLen fs + 1 - wo.length
decreasing_by
  have hle := length_le_maxLen h
  have hdot : (".").length = 1 := rfl
  have hnew : ("_new").length = 4 := rfl
  simp [String.length_append] at hle ⊢
  omega

/-- render.py lines 30-35, `settings.ffmpeg_settings`: the general knobs
consulted by `render_file` when assembling arguments. -/
structure FfmpegSettings where
  replace_existing_file : Bool
  intentional_delay_between_encodings : Nat
  hide_ffmpeg_banner : Bool
  show_extra_ffmpeg_debug_info : Bool
  ffmpeg_log_level_debug : String
deriving Repr, DecidableEq

/-- The literal values of `settings.ffmpeg_settings` in render.py. -/
def defaultFfmpegSettings : FfmpegSettings :=
  { replace_existing_file := true
    intentional_delay_between_encodings := 1
    hide_ffmpeg_banner := true
    show_extra_ffmpeg_debug_info := true
    ffmpeg_log_level_debug := "warning" }

/-- render.py lines 37-78, `settings.ffmpeg_render_args`: the literal
dictionary of encoding knobs, in source order. -/
def ffmpeg_render_args : PDict := pdictOf [
  ("hwaccel", PVal.vnone),
  ("hwaccel_device", PVal.vnone),
  ("c:v", PVal.vstr "libsvtav1"),
  ("minrate:v", PVal.vstr "2m"),
  ("maxrate:v", PVal.vstr "8m"),
  ("quality", PVal.vstr "high"),
  ("level", PVal.vfloat "4.0"),
  ("b:v", PVal.vint 0),
  ("tune", PVal.vint 0),
  ("framerate", PVal.vstr "60"),
  ("threads", PVal.vint 0),
  ("tile_columns", PVal.vint 2),
  ("tile_rows", PVal.vint 4),
  ("profile:v", PVal.vstr "main"),
  ("pred", PVal.vstr "complex"),
  ("b_strategy", PVal.vint 1),
  ("bf", PVal.vint 2),
  ("c:a", PVal.vstr "libopus"),
  ("b:a", PVal.vstr "128k"),
  ("ar", PVal.vstr "48000"),
  ("c:s", PVal.vstr "webvtt"),
  ("pix_fmt", PVal.vstr "yuv444p"),
  ("sharpness", PVal.vfloat "0.5"),
  ("gamma", PVal.vfloat "2.2"),
  ("deblock", PVal.vint 4),
  ("noise_reduction", PVal.vfloat "0.5"),
  ("additional_metadata", PVal.vdict (pdictOf [
    ("metadata title=", PVal.vnone),
    ("metadata:s:v:0 title=", PVal.vnone),
    ("metadata:s:a:0 title=", PVal.vnone),
    ("metadata:s:v:0 language=", PVal.vnone),
    ("metadata:s:a:0 language=", PVal.vnone),
    ("metadata artist=", PVal.vnone),
    ("metadata year=", PVal.vnone),
    ("metadata genre=", PVal.vnone),
    ("metadata album=", PVal.vnone),
    ("metadata album_artist=", PVal.vnone),
    ("metadata comment=", PVal.vnone),
    ("metadata track=", PVal.vnone)]))]

/-- render.py lines 98-122, the argument-building part of `render_file`.
`inputAbs` is the absolute input path; the absolute output path is
`outParent ++ "/" ++ outStem ++ "." ++ ext` (its parent/stem decomposition,
as computed by `output_dir.parent / output_dir.stem`); `fs` is the set of
existing filesystem entries consulted by the no-clobber loop. Each list
element is one space-joined fragment of the final shell string, exactly as
the source builds them. -/
def render_file_args (cfg : FfmpegSettings) (raArgs : PDict)
    (ext : String) (fs : List String)
    (inputAbs outParent outStem : String) : List String :=
  let a0 := (flatten_dict raArgs "" " " true).map
    (fun kv => if kv.2 = "" then "-" ++ kv.1 else "-" ++ kv.1 ++ " " ++ kv.2)
  let a1 := pyInsert a0 0 ("-i \"" ++ inputAbs ++ "\"")
  let a2 :=
    if cfg.replace_existing_file then
      pyInsert a1 1 "-y" ++
        ["\"" ++ (outParent ++ "/" ++ outStem ++ "." ++ ext) ++ "\""]
    else
      a1 ++ ["\"" ++ noClobberLoop fs ext (outParent ++ "/" ++ outStem) ++ "\""]
  let a3 := if cfg.hide_ffmpeg_banner then pyInsert a2 2 "-hide_banner" else a2
  let a4 := if cfg.show_extra_ffmpeg_debug_info then pyInsert a3 2 "-stats" else a3
  let a5 := if cfg.ffmpeg_log_level_debug ≠ "" then
      pyInsert a4 2 ("-loglevel " ++ cfg.ffmpeg_log_level_debug) else a4
  pyInsert a5 2 "-strict experimental"

/-- Split a string on single spaces (the token view of one space-joined
command fragment). -/
def splitSpacesAux : List Char → List Char → List String
  | [], acc => [String.mk acc.reverse]
  | c :: cs, acc =>
    if c = ' ' then String.mk acc.reverse :: splitSpacesAux cs []
    else splitSpacesAux cs (c :: acc)

/-- Token view of a command fragment: split on spaces. -/
def splitSpaces (s : String) : List String := splitSpacesAux s.data []

/-- render.py lines 125-126: the full command is the quoted encoder path
(`"ffmpeg.exe"`) followed by the space-joined fragments; its token vector
splits every fragment on spaces. -/
def ffmpeg_command_tokens (cfg : FfmpegSettings) (raArgs : PDict)
    (ext : String) (fs : List String)
    (inputAbs outParent outStem : String) : List String :=
  (("\"ffmpeg.exe\"" :: render_file_args cfg raArgs ext fs inputAbs outParent outStem).map
    splitSpaces).flatten

/-- First index of token `s` in `l` (the list length when absent). -/
def firstIdx (l : List String) (s : String) : Nat := l.findIdx (fun t => t = s)

/-- The end-to-end scenario of the spec: input file `movie.mkv`, output
directory `out/`, output extension `mp4`, with the source literal
settings, run from working directory `/work` (so the absolute paths are
`/work/movie.mkv` and `/work/out/movie.mp4`). -/
def scenarioTokens : List String :=
  ffmpeg_command_tokens defaultFfmpegSettings ffmpeg_render_args "mp4" []
    "/work/movie.mkv" "/work/out" "movie"

/-- A Python argument value as passed to transcodash.py `append_to_list`:
`None`, a string, an int, or a bool. -/
inductive PyOpt where
  | none : PyOpt
  | str : String → PyOpt
  | int : Int → PyOpt
  | bool : Bool → PyOpt
deriving Repr, DecidableEq

/-- Python `str()` on a `PyOpt` value. -/
def pyStr : PyOpt → String
  | PyOpt.none => "None"
  | PyOpt.str s => s
  | PyOpt.int n => toString n
  | PyOpt.bool b => if b then "True" else "False"

/-- Python truthiness of a `PyOpt` value. -/
def pyTruthy : PyOpt → Bool
  | PyOpt.none => false
  | PyOpt.str s => !s.isEmpty
  | PyOpt.int n => n != 0
  | PyOpt.bool b => b

/-- transcodash.py lines 36-57, `append_to_list`: bool values are dropped
outright; a `None` value with `ignore_if_not_value` leaves the list
untouched; otherwise the stringified flag name (`pfx` models the second
source parameter) and value are appended when not `None`. -/
def append_to_list (raw_list : List String) (pfx value : PyOpt)
    (ignore_if_not_value : Bool) : List String :=
  match value with
  | PyOpt.bool _ => raw_list
  | _ =>
    if ignore_if_not_value = true ∧ value = PyOpt.none then raw_list
    else
      let l1 := match pfx with
        | PyOpt.none => raw_list
        | p => raw_list ++ [pyStr p]
      match value with
      | PyOpt.none => l1
      | v => l1 ++ [pyStr v]

/-- transcodash.py lines 158-165, the mutable state of
`FFmpegGeneralSettings` (each field starts as `None` and may be set by
`calculate_best_parameters`). -/
structure FFmpegGeneralSettings where
  ffmpeg_path : PyOpt
  gpu_acceleration_api : PyOpt
  gpu_acceleration_device_index : PyOpt
  threads : PyOpt
  overwrite_existing_files : PyOpt
  hide_banner : PyOpt
  show_extra_debug_info : PyOpt
deriving Repr, DecidableEq

/-- transcodash.py lines 245-260, `FFmpegGeneralSettings.generate_cli_args`. -/
def ffmpeg_general_generate_cli_args (s : FFmpegGeneralSettings) : List String :=
  let g1 := append_to_list [] PyOpt.none s.ffmpeg_path false
  let g2 := append_to_list g1 (PyOpt.str "-hwaccel") s.gpu_acceleration_api true
  let g3 := append_to_list g2 (PyOpt.str "-hwaccel_device")
    s.gpu_acceleration_device_index true
  let g4 := append_to_list g3 (PyOpt.str "-threads") s.threads true
  let g5 := append_to_list g4 PyOpt.none
    (if pyTruthy s.overwrite_existing_files then PyOpt.str "-y" else PyOpt.none) false
  let g6 := append_to_list g5 PyOpt.none
    (if pyTruthy s.hide_banner then PyOpt.str "-hide_banner" else PyOpt.none) false
  append_to_list g6 PyOpt.none
    (if pyTruthy s.show_extra_debug_info then PyOpt.str "-stats" else PyOpt.none) false

/-- transcodash.py line 336-344: `VideoSection.Arguments.generate_cli_args`
is a stub returning the empty list. -/
def video_arguments_generate_cli_args : List String := []

/-- transcodash.py lines 361-369: `VideoSection.Filters.generate_cli_args`
is a stub returning the empty list. -/
def video_filters_generate_cli_args : List String := []

/-- transcodash.py lines 293-302, `VideoSection.generate_cli_args`. -/
def video_section_generate_cli_args : List String :=
  video_arguments_generate_cli_args ++ video_filters_generate_cli_args

/-- transcodash.py lines 412-420: `AudioSection.Arguments.generate_cli_args`
is a stub returning the empty list. -/
def audio_arguments_generate_cli_args : List String := []

/-- transcodash.py lines 431-439: `AudioSection.Filters.generate_cli_args`
is a stub returning the empty list. -/
def audio_filters_generate_cli_args : List String := []

/-- transcodash.py lines 380-389, `AudioSection.generate_cli_args`. -/
def audio_section_generate_cli_args : List String :=
  audio_arguments_generate_cli_args ++ audio_filters_generate_cli_args

/-- transcodash.py lines 460-468: `SubtitleArguments.generate_cli_args`
is a stub returning the empty list. -/
def subtitle_arguments_generate_cli_args : List String := []

/-- transcodash.py lines 493-501: `MetadataArguments.generate_cli_args`
is a stub returning the empty list. -/
def metadata_arguments_generate_cli_args : List String := []

/-- transcodash.py lines 506-514: `CustomArguments.generate_cli_args`
is a stub returning the empty list. -/
def custom_arguments_generate_cli_args : List String := []

/-- transcodash.py lines 270-282, `FFmpegRenderSettings.generate_cli_args`:
the concatenation of every section tokens in schema order. -/
def ffmpeg_render_generate_cli_args : List String :=
  video_section_generate_cli_args ++ audio_section_generate_cli_args ++
  subtitle_arguments_generate_cli_args ++ metadata_arguments_generate_cli_args ++
  custom_arguments_generate_cli_args

/-- transcodash.py lines 614-618, the argument assembly in `app`: general
settings tokens, render settings tokens, then `-i` and the input path
inserted at indices 1 and 2, and the output path appended last. -/
def app_cli_args (g : FFmpegGeneralSettings)
    (input_filepath output_filepath : String) : List String :=
  let args0 := ffmpeg_general_generate_cli_args g ++ ffmpeg_render_generate_cli_args
  let args1 := pyInsert args0 1 "-i"
  let args2 := pyInsert args1 2 input_filepath
  args2 ++ [output_filepath]

/-- Python `str.strip()` with no argument: drop leading and trailing
whitespace characters (modelled over the ASCII whitespace set). -/
def pyStrip (s : String) : String :=
  String.mk (((s.data.dropWhile Char.isWhitespace).reverse.dropWhile
    Char.isWhitespace).reverse)

/-- The filter condition of transcodash.py line 150: an item is kept when
it is not `None` and its `strip()` is truthy (non-empty). -/
def keepItem : Option String → Bool
  | Option.none => false
  | Option.some s => decide (pyStrip s ≠ "")

/-- transcodash.py line 150, the list comprehension of `clean_list_items`:
keep the items satisfying the filter condition above. -/
def clean_list_items (raw_list : List (Option String)) : List (Option String) :=
  raw_list.filter keepItem

/-- transcodash.py line 619: the cleaned final argument vector of `app`
(the assembled list holds only strings, injected into `Option` because
`clean_list_items` also filters `None`). -/
def clean_app_cli_args (g : FFmpegGeneralSettings)
    (input_filepath output_filepath : String) : List (Option String) :=
  clean_list_items ((app_cli_args g input_filepath output_filepath).map Option.some)

/-- One recorded result of render.py per-file loop (lines 147-155):
the input path and the encoder exit code. -/
structure RenderOutcome where
  input : String
  returncode : Int
deriving Repr, DecidableEq

/-- render.py lines 152-155: a job succeeded when its exit code is 0. -/
def RenderOutcome.succeeded (o : RenderOutcome) : Bool := o.returncode == 0

/-- render.py lines 147-155, the batch loop of `main`: every input file is
passed to the encoder exactly once, in order, and its outcome is recorded;
a non-zero exit code does not stop the loop. `encoder` gives the external
process exit code for each input. -/
def run_batch (encoder : String → Int) (files : List String) : List RenderOutcome :=
  files.map (fun f => { input := f, returncode := encoder f })

/-- Number of recorded successes (exit code 0). -/
def count_successes (outcomes : List RenderOutcome) : Nat :=
  (outcomes.filter (fun o => o.returncode == 0)).length

/-- Number of recorded failures (non-zero exit code). -/
def count_failures (outcomes : List RenderOutcome) : Nat :=
  (outcomes.filter (fun o => !(o.returncode == 0))).length

/-- Python `sys.exit`: exit code 0 when called with no argument. -/
def sys_exit_code : Option Int → Int
  | Option.none => 0
  | Option.some n => n

/-- render.py lines 183-185: after `main()` returns, the process exits via
`sys.exit()` with no argument, independent of the recorded outcomes. -/
def program_exit_code (_outcomes : List RenderOutcome) : Int :=
  sys_exit_code Option.none

/-- What the post-batch action runner dispatched. -/
inductive EndActionRun where
  | nothing : EndActionRun
  | customCmd : String → EndActionRun
  | power : String → EndActionRun
deriving Repr, DecidableEq

/-- Python truthiness of an optional string (`None` and `""` are falsy). -/
def pyTruthyS : Option String → Bool
  | Option.none => false
  | Option.some s => !s.isEmpty

/-- render.py lines 162-180, the post-batch action runner: nothing happens
unless `mode` or `custom_command` is truthy; a truthy `custom_command` is
executed and the power branch is skipped; otherwise the lowered `mode`
selects the platform power command (unrecognized modes dispatch nothing). -/
def run_end_action (mode custom_command : Option String) : EndActionRun :=
  if pyTruthyS mode || pyTruthyS custom_command then
    if pyTruthyS custom_command then
      EndActionRun.customCmd (custom_command.getD "")
    else if !(pyTruthyS mode) then EndActionRun.nothing
    else
      match (mode.getD "").toLower with
      | "shutdown" => EndActionRun.power "shutdown -s -t 60"
      | "restart" => EndActionRun.power "shutdown -r -t 60"
      | "suspend" => EndActionRun.power "shutdown -h -t 60"
      | _ => EndActionRun.nothing
  else EndActionRun.nothing

/-- The growing set of existing filesystem entries when the no-clobber
resolver is called repeatedly for the same base candidate, each returned
path being created (added to the set) before the next call. -/
def noClobberIter (fs : List String) (ext wo : String) : Nat → List String
  | 0 => fs
  | n + 1 =>
    let prev := noClobberIter fs ext wo n
    noClobberLoop prev ext wo :: prev

/-- The path returned by the n-th repeated no-clobber resolution. -/
def noClobberNth (fs : List String) (ext wo : String) (n : Nat) : String :=
  noClobberLoop (noClobberIter fs ext wo n) ext wo

theorem pyInsert_zero (l : List α) (x : α) : pyInsert l 0 x = x :: l := rfl

theorem pyInsert_succ_cons (a : α) (t : List α) (n : Nat) (x : α) :
    pyInsert (a :: t) (n + 1) x = a :: pyInsert t n x := rfl

theorem pyInsert_length (l : List α) (n : Nat) (x : α) :
    (pyInsert l n x).length = l.length + 1 := by
  simp [pyInsert]
  omega

/-- Membership in the cleaned list is membership in the source list together
with being a non-`None`, non-blank string. -/
theorem clean_list_items_mem (l : List (Option String)) (o : Option String) :
    o ∈ clean_list_items l ↔ o ∈ l ∧ ∃ s, o = Option.some s ∧ pyStrip s ≠ "" := by
  rw [clean_list_items, List.mem_filter]
  constructor
  · rintro ⟨hl, hp⟩
    refine ⟨hl, ?_⟩
    cases o with
    | none => simp [keepItem] at hp
    | some s =>
      refine ⟨s, rfl, ?_⟩
      have hp' : decide (pyStrip s ≠ "") = true := hp
      exact of_decide_eq_true hp'
  · rintro ⟨hl, s, rfl, hs⟩
    exact ⟨hl, show keepItem (Option.some s) = true from decide_eq_true hs⟩

/-- The value returned by the no-clobber loop never collides with an
existing filesystem entry. -/
theorem noClobberLoop_not_mem (fs : List String) (ext wo : String) :
    noClobberLoop fs ext wo ∉ fs := by
  induction wo using noClobberLoop.induct fs ext with
  | case1 x h ih =>
    rw [noClobberLoop, dif_pos h]
    exact ih
  | case2 x h =>
    rw [noClobberLoop, dif_neg h]
    exact h

/-- The growing filesystem sets of repeated no-clobber resolution are
monotone. -/
theorem noClobberIter_mono (fs : List String) (ext wo : String) {m n : Nat}
    (h : m ≤ n) :
    ∀ x, x ∈ noClobberIter fs ext wo m → x ∈ noClobberIter fs ext wo n := by
  induction n, h using Nat.le_induction with
  | base => exact fun x hx => hx
  | succ n hmn ih =>
    intro x hx
    exact List.mem_cons_of_mem _ (ih x hx)

theorem pyInsert_one_cons (a : α) (t : List α) (x : α) :
    pyInsert (a :: t) 1 x = a :: pyInsert t 0 x := rfl

theorem pyInsert_two_cons (a : α) (t : List α) (x : α) :
    pyInsert (a :: t) 2 x = a :: pyInsert t 1 x := rfl

/-- A representative `FFmpegGeneralSettings` state after
`calculate_best_parameters` on a machine with ffmpeg installed and 8 CPUs:
path set, no GPU acceleration, 7 threads, and the three boolean knobs on. -/
def calculatedGeneralSettings : FFmpegGeneralSettings :=
  { ffmpeg_path := PyOpt.str "/usr/bin/ffmpeg"
    gpu_acceleration_api := PyOpt.none
    gpu_acceleration_device_index := PyOpt.none
    threads := PyOpt.int 7
    overwrite_existing_files := PyOpt.bool true
    hide_banner := PyOpt.bool true
    show_extra_debug_info := PyOpt.bool true }

/-- C1: for the end-to-end scenario (single input file movie.mkv, output
directory out/, output extension mp4, settings with video codec libsvtav1
and audio codec libopus), the compiled argument vector begins with the
encoder path, contains the token pair `-i` plus the absolute input path
before any `-c:v` token, contains `-c:v libsvtav1` and `-c:a libopus` in
that relative order, and ends with the absolute path of out/movie.mp4 as
its final token. -/
theorem c1_end_to_end_scenario :
    scenarioTokens.head? = some "\"ffmpeg.exe\"" ∧
    scenarioTokens[firstIdx scenarioTokens "-i"]? = some "-i" ∧
    scenarioTokens[firstIdx scenarioTokens "-i" + 1]? = some "\"/work/movie.mkv\"" ∧
    firstIdx scenarioTokens "-i" + 1 < firstIdx scenarioTokens "-c:v" ∧
    scenarioTokens[firstIdx scenarioTokens "-c:v"]? = some "-c:v" ∧
    scenarioTokens[firstIdx scenarioTokens "-c:v" + 1]? = some "libsvtav1" ∧
    firstIdx scenarioTokens "-c:v" < firstIdx scenarioTokens "-c:a" ∧
    scenarioTokens[firstIdx scenarioTokens "-c:a"]? = some "-c:a" ∧
    scenarioTokens[firstIdx scenarioTokens "-c:a" + 1]? = some "libopus" ∧
    scenarioTokens.getLast? = some "\"/work/out/movie.mp4\"" := by decide

/-- C9: `append_to_list` returns its list unchanged for every boolean
value, whatever the flag-name argument and the ignore flag, so boolean
settings can never be emitted through the generic flag/value path. -/
theorem c9_bool_value_no_tokens (l : List String) (pfx : PyOpt)
    (b ignore : Bool) :
    append_to_list l pfx (PyOpt.bool b) ignore = l := rfl

/-- C4: a setting whose value is null contributes zero tokens: a `None`
entry anywhere in the render-args dict vanishes from `flatten_dict` output
(with `skip_none`), and `append_to_list` leaves its list untouched for a
`None` value at every call-site shape used by the program. -/
theorem c4_null_setting_emits_nothing :
    (∀ (l1 l2 : List (String × PVal)) (k parent_key sep : String),
      flatten_dict (pdictOf (l1 ++ (k, PVal.vnone) :: l2)) parent_key sep true =
        flatten_dict (pdictOf (l1 ++ l2)) parent_key sep true) ∧
    (∀ (l : List String) (pfx : PyOpt),
      append_to_list l pfx PyOpt.none true = l) ∧
    (∀ l : List String, append_to_list l PyOpt.none PyOpt.none false = l) := by
  refine ⟨?_, ?_, ?_⟩
  · intro l1 l2 k parent_key sep
    induction l1 with
    | nil => simp [pdictOf, flatten_dict, flattenEntry]
    | cons a t ih =>
      obtain ⟨ak, av⟩ := a
      simp [pdictOf, flatten_dict, ih]
  · intro l pfx
    rfl
  · intro l
    rfl

/-- C3: the argument compiler is deterministic: with every compiler input
(settings state, render-args dict, paths, filesystem) held fixed, compiling
twice yields identical token sequences. -/
theorem c3_compile_deterministic (cfg cfg' : FfmpegSettings) (ra ra' : PDict)
    (ext ext' : String) (fs fs' : List String)
    (inp inp' oP oP' oS oS' : String) (g g' : FFmpegGeneralSettings)
    (h : cfg = cfg' ∧ ra = ra' ∧ ext = ext' ∧ fs = fs' ∧ inp = inp' ∧
      oP = oP' ∧ oS = oS' ∧ g = g') :
    render_file_args cfg ra ext fs inp oP oS =
      render_file_args cfg' ra' ext' fs' inp' oP' oS' ∧
    ffmpeg_general_generate_cli_args g = ffmpeg_general_generate_cli_args g' := by
  obtain ⟨h1, h2, h3, h4, h5, h6, h7, h8⟩ := h
  subst h1 h2 h3 h4 h5 h6 h7 h8
  exact ⟨rfl, rfl⟩

theorem c3_witness :
    render_file_args defaultFfmpegSettings ffmpeg_render_args "mp4" []
        "/work/movie.mkv" "/work/out" "movie" =
      render_file_args defaultFfmpegSettings ffmpeg_render_args "mp4" []
        "/work/movie.mkv" "/work/out" "movie" ∧
    ffmpeg_general_generate_cli_args calculatedGeneralSettings =
      ffmpeg_general_generate_cli_args calculatedGeneralSettings :=
  c3_compile_deterministic _ _ _ _ _ _ _ _ _ _ _ _ _ _ _ _
    ⟨rfl, rfl, rfl, rfl, rfl, rfl, rfl, rfl⟩

/-- C6: the batch driver isolates per-item failures: in a batch of three
inputs where the second encoder invocation returns a non-zero exit code,
every input is attempted exactly once in order, and the recorded outcomes
report exactly 1 failure and 2 successes. -/
theorem c6_partial_failure_isolation (enc : String → Int) (f1 f2 f3 : String)
    (h1 : enc f1 = 0) (h2 : enc f2 ≠ 0) (h3 : enc f3 = 0) :
    (run_batch enc [f1, f2, f3]).map RenderOutcome.input = [f1, f2, f3] ∧
    count_failures (run_batch enc [f1, f2, f3]) = 1 ∧
    count_successes (run_batch enc [f1, f2, f3]) = 2 := by
  have h2' : (enc f2 == 0) = false := by
    rcases Bool.eq_false_or_eq_true (enc f2 == 0) with hb | hb
    · exact absurd (eq_of_beq hb) h2
    · exact hb
  refine ⟨rfl, ?_, ?_⟩ <;>
    simp [run_batch, count_failures, count_successes, h1, h3, h2']

theorem c6_witness :
    (run_batch (fun s => if s = "b" then (1 : Int) else 0) ["a", "b", "c"]).map
        RenderOutcome.input = ["a", "b", "c"] ∧
    count_failures
        (run_batch (fun s => if s = "b" then (1 : Int) else 0) ["a", "b", "c"]) = 1 ∧
    count_successes
        (run_batch (fun s => if s = "b" then (1 : Int) else 0) ["a", "b", "c"]) = 2 :=
  c6_partial_failure_isolation _ "a" "b" "c" (by decide) (by decide) (by decide)

/-- C7 counterexample: a batch with one failed job (exit code 1) still
makes the process exit with code 0, because line 185 of render.py calls
`sys.exit()` with no argument; so the exit code does not distinguish
failed jobs. -/
theorem c7_exit_code_counterexample :
    count_failures (run_batch (fun _ => 1) ["movie.mkv"]) = 1 ∧
    program_exit_code (run_batch (fun _ => 1) ["movie.mkv"]) = 0 := by decide

/-- C7 (amended): after the batch loop completes, the process exit code is
always 0, regardless of the recorded outcomes; no distinct non-zero code
for failed jobs exists. -/
theorem c7_exit_code_always_zero (outcomes : List RenderOutcome) :
    program_exit_code outcomes = 0 := rfl

/-- C8: end-action exclusivity: a truthy custom command always wins (the
power task is never dispatched alongside it), a power dispatch can only
happen when the custom command is not set, and when neither is set the
runner is a no-op. -/
theorem c8_end_action_exclusive (mode custom_command : Option String) :
    (pyTruthyS custom_command = true →
      run_end_action mode custom_command =
        EndActionRun.customCmd (custom_command.getD "")) ∧
    (pyTruthyS mode = false → pyTruthyS custom_command = false →
      run_end_action mode custom_command = EndActionRun.nothing) ∧
    (∀ t, run_end_action mode custom_command = EndActionRun.power t →
      pyTruthyS custom_command = false) := by
  refine ⟨?_, ?_, ?_⟩
  · intro hc
    simp [run_end_action, hc]
  · intro hm hc
    simp [run_end_action, hm, hc]
  · intro t hp
    by_cases hc : pyTruthyS custom_command = true
    · simp [run_end_action, hc] at hp
    · simpa using hc

theorem c8_witness :
    run_end_action (Option.some "shutdown") (Option.some "echo done") =
      EndActionRun.customCmd "echo done" ∧
    run_end_action Option.none Option.none = EndActionRun.nothing :=
  ⟨(c8_end_action_exclusive (Option.some "shutdown") (Option.some "echo done")).1
      (by decide),
   (c8_end_action_exclusive Option.none Option.none).2.1 (by decide) (by decide)⟩

/-- C10: `clean_list_items` returns exactly the non-null, non-blank items
of its input in their original order (a sublist whose membership is
characterized below), and consequently the cleaned final argument vector
of the application contains no null, empty, or whitespace-only tokens. -/
theorem c10_clean_tokens :
    (∀ l : List (Option String), List.Sublist (clean_list_items l) l) ∧
    (∀ (l : List (Option String)) (o : Option String),
      o ∈ clean_list_items l ↔ o ∈ l ∧ ∃ s, o = Option.some s ∧ pyStrip s ≠ "") ∧
    (∀ (g : FFmpegGeneralSettings) (inp outp : String) (t : Option String),
      t ∈ clean_app_cli_args g inp outp →
        ∃ s, t = Option.some s ∧ pyStrip s ≠ "") := by
  refine ⟨?_, clean_list_items_mem, ?_⟩
  · intro l
    exact List.filter_sublist l
  · intro g inp outp t ht
    exact ((clean_list_items_mem _ t).mp ht).2

theorem c10_witness :
    ∃ s, (Option.some "-i" : Option String) = Option.some s ∧ pyStrip s ≠ "" :=
  c10_clean_tokens.2.2
    ⟨PyOpt.none, PyOpt.none, PyOpt.none, PyOpt.none, PyOpt.none, PyOpt.none,
      PyOpt.none⟩
    "in" "out" (Option.some "-i") (by decide)

/-- C5: under the no-clobber policy, for every finite set of existing
entries containing the base candidate, resolution (total by construction)
returns a path colliding with no existing entry, and repeated calls against
the growing set (each returned path added before the next call) never
return the same path twice. -/
theorem c5_no_clobber_unique (fs : List String) (ext wo : String)
    (hbase : (wo ++ "." ++ ext) ∈ fs) :
    noClobberLoop fs ext wo ∉ fs ∧
    ∀ m n, m < n → noClobberNth fs ext wo m ≠ noClobberNth fs ext wo n := by
  refine ⟨noClobberLoop_not_mem fs ext wo, ?_⟩
  intro m n hmn heq
  have hm1 : noClobberNth fs ext wo m ∈ noClobberIter fs ext wo (m + 1) :=
    List.mem_cons_self _ _
  have hm2 : noClobberNth fs ext wo m ∈ noClobberIter fs ext wo n :=
    noClobberIter_mono fs ext wo hmn _ hm1
  rw [heq] at hm2
  exact noClobberLoop_not_mem _ _ _ hm2

theorem c5_witness :
    noClobberLoop ["/work/out/movie.mp4"] "mp4" "/work/out/movie" ∉
      ["/work/out/movie.mp4"] ∧
    noClobberNth ["/work/out/movie.mp4"] "mp4" "/work/out/movie" 0 ≠
      noClobberNth ["/work/out/movie.mp4"] "mp4" "/work/out/movie" 1 := by
  have h := c5_no_clobber_unique ["/work/out/movie.mp4"] "mp4" "/work/out/movie"
    (by decide)
  exact ⟨h.1, h.2 0 1 (by decide)⟩

/-- Inserting at index 2 preserves a known head and keeps length at least 2. -/
theorem head_two_step (l : List String) (tok x : String)
    (h : l.head? = some tok ∧ 2 ≤ l.length) :
    (pyInsert l 2 x).head? = some tok ∧ 2 ≤ (pyInsert l 2 x).length := by
  obtain ⟨hh, hl⟩ := h
  cases l with
  | nil => simp at hh
  | cons a t =>
    rw [pyInsert_two_cons]
    refine ⟨hh, ?_⟩
    simp [pyInsert_length]

/-- Conditional insertion at index 2 preserves a known head and the length
bound. -/
theorem head_two_step_if (l : List String) (tok x : String) (c : Prop)
    [Decidable c] (h : l.head? = some tok ∧ 2 ≤ l.length) :
    (if c then pyInsert l 2 x else l).head? = some tok ∧
    2 ≤ (if c then pyInsert l 2 x else l).length := by
  split
  · exact head_two_step l tok x h
  · exact h

/-- C2 counterexample: in the end-to-end scenario the `-i` token pair sits
at indices 1-2, directly after the encoder path, while the general/runtime
flag `-y` appears only later — so the input tokens are NOT placed after the
general/runtime flags. -/
theorem c2_input_position_counterexample :
    scenarioTokens[1]? = some "-i" ∧
    scenarioTokens[2]? = some "\"/work/movie.mkv\"" ∧
    "-y" ∈ scenarioTokens ∧
    firstIdx scenarioTokens "-i" < firstIdx scenarioTokens "-y" := by decide

/-- C2 (amended): in every compiled argument sequence the input-file token
sequence comes first — immediately after the encoder path and hence before
the general/runtime flags and before all per-stream codec flags — and is
never at the end (at least one further fragment follows it). -/
theorem c2_input_position_amended :
    (∀ (cfg : FfmpegSettings) (ra : PDict) (ext : String) (fs : List String)
        (inp oP oS : String),
      (render_file_args cfg ra ext fs inp oP oS).head? =
        some ("-i \"" ++ inp ++ "\"") ∧
      2 ≤ (render_file_args cfg ra ext fs inp oP oS).length) ∧
    (∀ (g : FFmpegGeneralSettings) (inp outp : String),
      ffmpeg_general_generate_cli_args g ≠ [] →
        (app_cli_args g inp outp)[1]? = some "-i" ∧
        (app_cli_args g inp outp)[2]? = some inp ∧
        (app_cli_args g inp outp).getLast? = some outp ∧
        4 ≤ (app_cli_args g inp outp).length) := by
  refine ⟨?_, ?_⟩
  · intro cfg ra ext fs inp oP oS
    unfold render_file_args
    apply head_two_step
    apply head_two_step_if
    apply head_two_step_if
    apply head_two_step_if
    by_cases hr : cfg.replace_existing_file = true
    · rw [if_pos hr, pyInsert_zero, pyInsert_one_cons, pyInsert_zero]
      refine ⟨rfl, ?_⟩
      simp
    · rw [if_neg hr, pyInsert_zero]
      refine ⟨rfl, ?_⟩
      simp
  · intro g inp outp hne
    obtain ⟨a, t, hat⟩ : ∃ a t, ffmpeg_general_generate_cli_args g = a :: t := by
      cases hgen : ffmpeg_general_generate_cli_args g with
      | nil => exact absurd hgen hne
      | cons a t => exact ⟨a, t, rfl⟩
    unfold app_cli_args
    rw [hat]
    simp only [ffmpeg_render_generate_cli_args, video_section_generate_cli_args,
      video_arguments_generate_cli_args, video_filters_generate_cli_args,
      audio_section_generate_cli_args, audio_arguments_generate_cli_args,
      audio_filters_generate_cli_args, subtitle_arguments_generate_cli_args,
      metadata_arguments_generate_cli_args, custom_arguments_generate_cli_args,
      List.append_nil]
    rw [pyInsert_one_cons, pyInsert_zero, pyInsert_two_cons, pyInsert_one_cons,
      pyInsert_zero]
    refine ⟨?_, ?_, ?_, ?_⟩
    · simp
    · simp
    · exact List.getLast?_concat _
    · simp

theorem c2_witness :
    (app_cli_args calculatedGeneralSettings "/in/movie.mkv" "/out/movie.mp4")[1]? =
      some "-i" ∧
    (app_cli_args calculatedGeneralSettings "/in/movie.mkv" "/out/movie.mp4")[2]? =
      some "/in/movie.mkv" ∧
    (app_cli_args calculatedGeneralSettings "/in/movie.mkv" "/out/movie.mp4").getLast? =
      some "/out/movie.mp4" ∧
    4 ≤ (app_cli_args calculatedGeneralSettings "/in/movie.mkv" "/out/movie.mp4").length :=
  c2_input_position_amended.2 calculatedGeneralSettings "/in/movie.mkv"
    "/out/movie.mp4" (by decide)
